import Mathlib

set_option maxRecDepth 8192

/-!
Verification of the Operation Execution & Lifecycle Engine of the
linux-update-dashboard repository, as a shallow embedding in Lean 4.

The embedding follows the Python sources `updater.py`, `disktool_core.py`
and `constants.py`.  Machine-level effects (subprocess spawning, SSH
transport, SQLite, the wall clock) are made explicit as parameters or
state records.  Escapes `\x27`, `\x7b`, `\x7d` inside string literals
stand for the apostrophe and brace characters of the original command
strings.
-/

namespace Dashboard

/-! ## Generic string helpers

Substring containment on the character lists underlying `String`,
used to state properties of generated command strings. -/

/-- `listHasPre pat l` : `pat` is an initial segment of `l`. -/
def listHasPre : List Char → List Char → Bool
  | [], _ => true
  | _ :: _, [] => false
  | p :: ps, c :: cs => p == c && listHasPre ps cs

/-- `listHasSub pat l` : `pat` occurs contiguously inside `l`. -/
def listHasSub (pat : List Char) : List Char → Bool
  | [] => pat.isEmpty
  | c :: cs => listHasPre pat (c :: cs) || listHasSub pat cs

/-- `strContains s pat` : `pat` occurs as a substring of `s`. -/
def strContains (s pat : String) : Bool :=
  listHasSub pat.data s.data

/-- Python `s.startswith(pat)`. -/
def strStarts (s pat : String) : Bool :=
  listHasPre pat.data s.data

/-- Python `s.lower()` (ASCII, as used by the sources). -/
def strLower (s : String) : String :=
  ⟨s.data.map Char.toLower⟩

/-- Python `s.upper()` (ASCII, as used by the sources). -/
def strUpper (s : String) : String :=
  ⟨s.data.map Char.toUpper⟩

/-- The whitespace set of Python's default `str.strip()`. -/
def isPySpace (c : Char) : Bool :=
  c == ' ' || c == '\t' || c == '\n' || c == '\r' || c == '\x0b' || c == '\x0c'

/-- Python `s.strip()`. -/
def pyStrip (s : String) : String :=
  ⟨((s.data.dropWhile isPySpace).reverse.dropWhile isPySpace).reverse⟩

/-- Split a character list at every occurrence of `sep`. -/
def splitOnChar (sep : Char) : List Char → List (List Char)
  | [] => [[]]
  | c :: cs =>
    match splitOnChar sep cs with
    | [] => [[]]
    | h :: t => if c == sep then [] :: h :: t else (c :: h) :: t

/-- Python `s.split('\n')`. -/
def pyLines (s : String) : List String :=
  (splitOnChar '\n' s.data).map (fun l => ⟨l⟩)

/-- Drop the first `n` characters of `s`. -/
def strDrop (s : String) (n : Nat) : String :=
  ⟨s.data.drop n⟩

/-! ## `updater.py` — command catalog -/

/-- `WINDOWS_UPDATE_BASE` from `updater.py`. -/
def WINDOWS_UPDATE_BASE : String :=
  "Install-PackageProvider -Name NuGet -MinimumVersion 2.8.5.201 -Force -ErrorAction SilentlyContinue; Install-Module PSWindowsUpdate -Force -ErrorAction SilentlyContinue; Import-Module PSWindowsUpdate; Get-WindowsUpdate -AcceptAll -Install -AutoReboot:$false"

/-- `WINDOWS_WINGET_UPDATE` from `updater.py`. -/
def WINDOWS_WINGET_UPDATE : String :=
  "if (Get-Command winget -ErrorAction SilentlyContinue) \x7b winget upgrade --all --accept-source-agreements --accept-package-agreements --silent \x7d"

/-- `SUPPORTED_DISTRIBUTIONS` from `updater.py`. -/
def SUPPORTED_DISTRIBUTIONS : List String :=
  ["ubuntu", "debian", "fedora", "centos", "arch", "windows"]

/-- `get_update_command` from `updater.py`: maps a distribution name and
the `repo_only` flag to `(command, description)`, or raises `ValueError`
(modelled as `Except.error`) for an unsupported distribution. -/
def get_update_command (distro : String) (repo_only : Bool) :
    Except String (String × String) :=
  if distro = "ubuntu" ∨ distro = "debian" then
    if repo_only then
      .ok ("sudo DEBIAN_FRONTEND=noninteractive apt-get update && sudo DEBIAN_FRONTEND=noninteractive apt-get upgrade -y -o Dpkg::Options::=\x27--force-confold\x27",
           "repository-only update (preserving config files)")
    else
      .ok ("sudo DEBIAN_FRONTEND=noninteractive apt-get update && sudo DEBIAN_FRONTEND=noninteractive apt-get upgrade -y && sudo DEBIAN_FRONTEND=noninteractive apt-get dist-upgrade -y",
           "full system update")
  else if distro = "fedora" then
    if repo_only then
      .ok ("sudo dnf upgrade -y --setopt=tsflags=noscripts",
           "repository-only update (preserving config files)")
    else
      .ok ("sudo dnf upgrade -y", "full system update")
  else if distro = "centos" then
    if repo_only then
      .ok ("sudo yum update -y --setopt=tsflags=noscripts",
           "repository-only update (preserving config files)")
    else
      .ok ("sudo yum update -y", "full system update")
  else if distro = "arch" then
    if repo_only then
      .ok ("sudo pacman -Syu --noconfirm --needed", "repository-only update")
    else
      .ok ("sudo pacman -Syu --noconfirm", "full system update")
  else if distro = "windows" then
    if repo_only then
      .ok ("powershell.exe -Command \"" ++ WINDOWS_UPDATE_BASE ++ "\"",
           "Windows system updates only")
    else
      .ok ("powershell.exe -Command \"" ++ WINDOWS_UPDATE_BASE ++ "; " ++ WINDOWS_WINGET_UPDATE ++ "\"",
           "full Windows system and software updates")
  else
    .error ("Unsupported distribution: " ++ distro)

/-- The five Linux families of the catalog. -/
def linuxFamilies : List String := ["ubuntu", "debian", "fedora", "centos", "arch"]

/-- Native package-manager token for each supported Linux family
(the invocation the generated command must contain). -/
def nativePackageManager (distro : String) : String :=
  if distro = "ubuntu" ∨ distro = "debian" then "apt-get"
  else if distro = "fedora" then "dnf"
  else if distro = "centos" then "yum"
  else if distro = "arch" then "pacman"
  else ""

/-- The config-preserving flag of a family's package manager, for the
families whose repo-only catalog entry documents one
("preserving config files"); `none` for `arch`, whose entry documents
no such flag. -/
def configPreservingFlag (distro : String) : Option String :=
  if distro = "ubuntu" ∨ distro = "debian" then some "--force-confold"
  else if distro = "fedora" ∨ distro = "centos" then some "--setopt=tsflags=noscripts"
  else none

end Dashboard

namespace Dashboard

/-! ## `disktool_core.py` — data model

The SQLite `operations` table is modelled as a list of rows plus the
next AUTOINCREMENT id; timestamps irrelevant to the claims are omitted. -/

/-- Status values written to `operations.status`. -/
inductive OpStatus
  | RUNNING
  | OK
  | FAIL
  | STOPPED
deriving DecidableEq, Repr

/-- One row of the `operations` table. -/
structure OpRow where
  id : Nat
  device : String
  action : String
  status : OpStatus
  progress : Int
deriving DecidableEq, Repr

/-- The `operations` table: rows plus the next AUTOINCREMENT id. -/
structure Store where
  ops : List OpRow
  nextId : Nat
deriving DecidableEq, Repr

/-- A freshly initialised database (AUTOINCREMENT starts at 1). -/
def emptyStore : Store := { ops := [], nextId := 1 }

/-- Character class `[a-zA-Z0-9_-]` of `sanitize_device_name` and of
`run`'s executable-name check. -/
def isDeviceNameChar (c : Char) : Bool :=
  c.isAlpha || c.isDigit || c == '_' || c == '-'

/-- The characters a Python `re.match(r'^...$', s)` pattern is applied
to: the `$` anchor also matches just before one newline at the end of
the string, so an anchored pattern effectively matches `s` with a
single trailing newline removed. -/
def reDollarCore (s : String) : List Char :=
  if s.data.getLast? == some '\n' then s.data.dropLast else s.data

/-- `sanitize_device_name` from `disktool_core.py`: accepts exactly the
strings matching `re.match(r'^[a-zA-Z0-9_-]{1,255}$', device)` — i.e.
1–255 allowed characters, optionally followed by one trailing newline
(Python `$` semantics) — raising `ValueError` (modelled as
`Except.error`) otherwise.  The empty string takes the falsy branch of
`if not device`. -/
def sanitize_device_name (device : String) : Except String String :=
  if device = "" then .error "Invalid device name"
  else if !(reDollarCore device).isEmpty
      && (reDollarCore device).all isDeviceNameChar
      && (reDollarCore device).length ≤ 255 then .ok device
  else .error ("Invalid device name: " ++ device)

/-- Character class `[a-zA-Z0-9/_-]` of `run`'s absolute-path check. -/
def isExecPathChar (c : Char) : Bool :=
  c.isAlpha || c.isDigit || c == '/' || c == '_' || c == '-'

/-- What `subprocess.run` does for a given argv: either the process
completes with an exit code and combined output, or spawning raises. -/
inductive SpawnResult
  | completed (exitCode : Int) (out : String)
  | raised (msg : String)

/-- Execution environment: the behaviour of `subprocess.run` per argv. -/
def ExecEnv : Type := List String → SpawnResult

/-- The validation performed by `run` in `disktool_core.py` before any
process is spawned; `some msg` is the `ValueError` it raises.  The
checks that `cmd` is a list of strings are enforced by typing.  Both
regex checks use `re.match` with a `$` anchor, modelled via
`reDollarCore`; since a newline is a control character, any executable
where the trailing-newline tolerance could matter is already rejected
by the preceding `ord(c) < 32` check, in the code and here alike. -/
def run_validation (cmd : List String) : Option String :=
  if cmd.isEmpty then some "Command list cannot be empty"
  else
    let executable := cmd.headD ""
    if executable.data.any (fun c => c.toNat < 32) then
      some "Invalid command executable: contains control characters"
    else if strStarts executable "/" then
      if listHasSub "..".data executable.data
          || !(match reDollarCore executable with
               | _ :: rest => !rest.isEmpty && rest.all isExecPathChar
               | [] => false) then
        some "Invalid command executable: path traversal detected"
      else none
    else
      if (reDollarCore executable).isEmpty
          || !(reDollarCore executable).all isDeviceNameChar then
        some ("Invalid command executable: " ++ executable)
      else none

/-- `run` from `disktool_core.py`: validates the argv, then spawns the
process with `shell=False`; it returns the output string regardless of
the exit code, and converts spawn exceptions to their message string
(`return str(e)`); only validation `ValueError`s propagate. -/
def run (env : ExecEnv) (cmd : List String) : Except String String :=
  match run_validation cmd with
  | some e => .error e
  | none =>
    match env cmd with
    | .completed _ out => .ok out
    | .raised m => .ok m

/-- `log_op` from `disktool_core.py`: inserts one row with
`status='RUNNING', progress=0` and returns its id (`cur.lastrowid`). -/
def log_op (st : Store) (device action : String) : Nat × Store :=
  (st.nextId,
   { ops := st.ops ++ [{ id := st.nextId, device := device, action := action,
                         status := OpStatus.RUNNING, progress := 0 }],
     nextId := st.nextId + 1 })

/-- `update_op` from `disktool_core.py`: updates status and/or progress
of the row with the given id; `None` arguments leave the field alone,
and with neither argument the statement is skipped. -/
def update_op (st : Store) (op_id : Nat) (status : Option OpStatus)
    (progress : Option Int) : Store :=
  if status.isNone && progress.isNone then st
  else
    { st with ops := st.ops.map (fun r =>
        if r.id = op_id then
          { r with status := status.getD r.status,
                   progress := progress.getD r.progress }
        else r) }

/-- Observable effects of one submitting call (`start_format` /
`start_smart`): the value returned to the caller, the store afterwards,
the `format_worker` threads spawned (deferred background work, encoded
by their arguments), the commands handed to `run` synchronously inside
the call, and the exception propagated to the caller, if any. -/
structure SubmitResult where
  ret : Option Nat
  store : Store
  spawnedWorkers : List (String × String × Nat)
  syncCmds : List (List String)
  exn : Option String
deriving Repr

/-- `start_format` from `disktool_core.py`: logs the operation row
first (no name validation at submission time), then spawns a daemon
thread running `format_worker` and returns the operation id. -/
def start_format (st : Store) (device fs : String) : SubmitResult :=
  let p := log_op st device ("FORMAT_" ++ fs)
  { ret := some p.1, store := p.2,
    spawnedWorkers := [(device, fs, p.1)], syncCmds := [], exn := none }

/-- `start_smart` from `disktool_core.py`: sanitizes the name and
validates the mode, runs `smartctl -t` synchronously in the calling
thread, then logs the operation row; the function has no `return`
statement, so the caller receives `None`. -/
def start_smart (env : ExecEnv) (st : Store) (device mode : String) : SubmitResult :=
  match sanitize_device_name device with
  | .error e =>
    { ret := none, store := st, spawnedWorkers := [], syncCmds := [], exn := some e }
  | .ok dev =>
    if mode ≠ "short" ∧ mode ≠ "long" then
      { ret := none, store := st, spawnedWorkers := [], syncCmds := [],
        exn := some "Invalid SMART mode" }
    else
      let cmd := ["smartctl", "-t", mode, "/dev/" ++ dev]
      match run env cmd with
      | .error e =>
        { ret := none, store := st, spawnedWorkers := [], syncCmds := [cmd],
          exn := some e }
      | .ok _ =>
        let p := log_op st dev ("SMART_" ++ strUpper mode)
        { ret := none, store := p.2, spawnedWorkers := [], syncCmds := [cmd],
          exn := none }

/-- The `cmd_map` of `format_worker`. -/
def cmd_map (fs : String) : Option (List String) :=
  if fs = "ext4" then some ["mkfs.ext4", "-F"]
  else if fs = "xfs" then some ["mkfs.xfs", "-f"]
  else if fs = "fat32" then some ["mkfs.vfat", "-F", "32"]
  else none

/-- `format_worker` from `disktool_core.py` (the background thread):
returns the store after the worker finishes together with the list of
argvs handed to `run`.  Any exception inside the `try` block — from
`sanitize_device_name`, from `run`'s argv validation, or the explicit
`Unknown fs` — finalizes the operation as `FAIL, 0`; reaching the end
finalizes it as `OK, 100`.  Exit codes never raise (see `run`). -/
def format_worker (env : ExecEnv) (st : Store) (device fs : String) (op_id : Nat) :
    Store × List (List String) :=
  match sanitize_device_name device with
  | .error _ => (update_op st op_id (some .FAIL) (some 0), [])
  | .ok dev =>
    let path := "/dev/" ++ dev
    let c1 := ["wipefs", "-a", path]
    match run env c1 with
    | .error _ => (update_op st op_id (some .FAIL) (some 0), [c1])
    | .ok _ =>
      match cmd_map fs with
      | none => (update_op st op_id (some .FAIL) (some 0), [c1])
      | some mkfsCmd =>
        let c2 := mkfsCmd ++ [path]
        match run env c2 with
        | .error _ => (update_op st op_id (some .FAIL) (some 0), [c1, c2])
        | .ok _ => (update_op st op_id (some .OK) (some 100), [c1, c2])

/-- `get_task_status` from `disktool_core.py`: `fetchone` on the row
with the given id; `(None, None)` when there is no such row. -/
def get_task_status (st : Store) (op_id : Nat) : Option OpStatus × Option Int :=
  match st.ops.find? (fun r => r.id = op_id) with
  | some r => (some r.status, some r.progress)
  | none => (none, none)

/-- System state around the store: the operation rows plus the set of
live worker processes/remote sessions (identified by pids), which the
store-level functions never touch. -/
structure SysState where
  store : Store
  procs : List Nat
deriving DecidableEq, Repr

/-- `stop_task` from `disktool_core.py`: one SQL `UPDATE operations SET
status='STOPPED' WHERE id=?`; nothing else is read or written and no
process is signalled. -/
def stop_task (s : SysState) (op_id : Nat) : SysState :=
  { s with store := { s.store with ops := s.store.ops.map (fun r =>
      if r.id = op_id then { r with status := OpStatus.STOPPED } else r) } }

end Dashboard

namespace Dashboard

/-! ## `disktool_core.py` — disk inventory sync and auto mode -/

/-- The device excluded from auto tasks (`AUTO_SKIP_DEVICE`). -/
def AUTO_SKIP_DEVICE : String := "mmcblk0"

/-- One block device as reported by `lsblk -J -d -o NAME,SIZE,MODEL,TYPE`. -/
structure BlockDev where
  name : String
  size : Option String
  model : Option String
  type : String
deriving DecidableEq, Repr

/-- `ls_disks` from `disktool_core.py`: `none` models `json.loads`
failing on the command output (the `except` branch returns `[]`);
otherwise only devices of type `disk` are kept. -/
def ls_disks (lsblkOut : Option (List BlockDev)) : List BlockDev :=
  match lsblkOut with
  | none => []
  | some data => data.filter (fun d => d.type = "disk")

/-- One row of the `disks` table.  `first_seen` is an abstract clock
value (`Nat`); `CURRENT_TIMESTAMP` at insertion during a sync that
captured `now` is modelled as `now` itself (the clock does not run
backwards within the call). -/
structure DiskRow where
  device : String
  serial : Option String
  model : Option String
  size : Option String
  present : Bool
  first_seen : Nat
deriving DecidableEq, Repr

/-- The `INSERT OR REPLACE ... COALESCE((SELECT first_seen ...),
CURRENT_TIMESTAMP)` statement of `sync_disks`: replaces the row for the
device, keeping an existing `first_seen`, else stamping the current
time. -/
def upsert_disk (db : List DiskRow) (d : BlockDev) (serial : Option String)
    (nowT : Nat) : List DiskRow :=
  if db.any (fun r => r.device = d.name) then
    db.map (fun r =>
      if r.device = d.name then
        { device := d.name, serial := serial, model := d.model, size := d.size,
          present := true, first_seen := r.first_seen }
      else r)
  else
    db ++ [{ device := d.name, serial := serial, model := d.model, size := d.size,
             present := true, first_seen := nowT }]

/-- A task started by `sync_disks` in auto mode. -/
inductive Submission
  | format (device fs : String)
  | smart (device mode : String)
deriving DecidableEq, Repr

/-- Subject a submission acts on. -/
def Submission.device : Submission → String
  | .format d _ => d
  | .smart d _ => d

/-- `sync_disks` from `disktool_core.py`: marks every row absent,
upserts the enumerated devices, computes `new_devices` as the rows with
`first_seen >= now` minus the skip device and `nvme*` devices, and — if
`auto_enabled` — starts a format (ext4) then a short SMART test for
each.  `serialOf` models `get_serial` (which swallows its errors).
Returns the new table and the submissions made. -/
def sync_disks (serialOf : String → Option String) (db : List DiskRow)
    (nowT : Nat) (lsblkOut : Option (List BlockDev)) (auto_enabled : Bool) :
    List DiskRow × List Submission :=
  let db1 := db.map (fun r => { r with present := false })
  let db2 := (ls_disks lsblkOut).foldl
      (fun acc d => upsert_disk acc d (serialOf d.name) nowT) db1
  let new_devices := (db2.filter (fun r => nowT ≤ r.first_seen)).map (fun r => r.device)
  let new_devices := new_devices.filter
      (fun dev => dev ≠ AUTO_SKIP_DEVICE && !strStarts dev "nvme")
  let subs :=
    if auto_enabled then
      new_devices.flatMap (fun dev => [Submission.format dev "ext4", Submission.smart dev "short"])
    else []
  (db2, subs)

/-- Input of one iteration of `auto_mode_worker`'s loop: the value of
the shared `auto_enabled` flag at this tick, the `lsblk` output of the
tick (`none` = enumeration output unparseable), and the wall time. -/
structure TickInput where
  auto_enabled : Bool
  lsblkOut : Option (List BlockDev)
  nowT : Nat

/-- One iteration of `auto_mode_worker`'s infinite loop (after the
10-second sleep): `if auto_enabled: sync_disks()`. -/
def auto_mode_tick (serialOf : String → Option String) (db : List DiskRow)
    (t : TickInput) : List DiskRow × List Submission :=
  if t.auto_enabled then
    sync_disks serialOf db t.nowT t.lsblkOut t.auto_enabled
  else (db, [])

/-- `auto_mode_worker` run for a finite prefix of its infinite loop:
processes every tick in order, returning the final table and the
submissions of each tick.  Totality of this function for every input
trace is the embedded form of "the loop never terminates early". -/
def auto_mode_run (serialOf : String → Option String) (db : List DiskRow) :
    List TickInput → List DiskRow × List (List Submission)
  | [] => (db, [])
  | t :: ts =>
    let p := auto_mode_tick serialOf db t
    let q := auto_mode_run serialOf p.1 ts
    (q.1, p.2 :: q.2)

end Dashboard

namespace Dashboard

/-! ## `updater.py` / `constants.py` — OS detection -/

/-- Python truthiness of an optional string (`None` and `""` falsy). -/
def pyTruthy : Option String → Bool
  | none => false
  | some v => v ≠ ""

/-- Python `strip('"')`: removes every leading and trailing `"`. -/
def stripQuoteChars (s : String) : String :=
  let l := s.data.dropWhile (fun c => c == '"')
  ⟨(l.reverse.dropWhile (fun c => c == '"')).reverse⟩

/-- The `ID=` / `VERSION_ID=` line scan shared by `detect_os_local` and
`detect_os_remote`: for each line, `line.split('=', 1)[1]` (here: drop
the matched key prefix), `.strip()`, `.strip('"')`, and `.lower()` for
the ID; a later matching line overwrites an earlier one. -/
def parse_os_release (content : String) : Option String × Option String :=
  (pyLines content).foldl
    (fun acc line =>
      if strStarts line "ID=" then
        (some (strLower (stripQuoteChars (pyStrip (strDrop line 3)))), acc.2)
      else if strStarts line "VERSION_ID=" then
        (acc.1, some (stripQuoteChars (pyStrip (strDrop line 11))))
      else acc)
    (none, none)

/-- Outcome of reading `/etc/os-release` locally. -/
inductive FileRead
  | missing
  | permissionDenied
  | ioError (msg : String)
  | ok (content : String)

/-- Local platform facts consumed by `detect_os_local`:
`constants.get_platform()` (i.e. `platform.system().lower()`),
`platform.release()`, and the release-file read outcome. -/
structure LocalEnv where
  platform : String
  release : String
  osRelease : FileRead

/-- `detect_os_local` from `updater.py`: total — every failure branch
(missing file, permission error, any other exception, malformed or
ID-less content) yields `(None, None)` instead of raising. -/
def detect_os_local (env : LocalEnv) : Option String × Option String :=
  if env.platform = "windows" then
    (some "windows", some (if env.release = "" then "unknown" else env.release))
  else
    match env.osRelease with
    | .missing => (none, none)
    | .permissionDenied => (none, none)
    | .ioError _ => (none, none)
    | .ok content =>
      let p := parse_os_release content
      if pyTruthy p.1 then p else (none, none)

/-- Outcome of the remote SSH exchange of `detect_os_remote`: either
some transport/auth failure raised during connect or probing (all
caught by the `except` arms), or a completed session with the outputs
of the Windows probe, the Windows-version probe, and the
`cat /etc/os-release` probe. -/
inductive RemoteProbe
  | transportFail (msg : String)
  | session (winProbeOut : String) (winVersionOut : String) (osReleaseOut : String)

/-- `detect_os_remote` from `updater.py`: loopback hosts delegate to
`detect_os_local`; otherwise the two-stage probe runs, and every
transport failure and every undetectable content yields `(None, None)`
instead of raising. -/
def detect_os_remote (host_is_localhost : Bool) (local_env : LocalEnv)
    (probe : RemoteProbe) : Option String × Option String :=
  if host_is_localhost then detect_os_local local_env
  else
    match probe with
    | .transportFail _ => (none, none)
    | .session winOut winVer osRel =>
      if strLower (pyStrip winOut) = "windows" then
        (some "windows",
         some (if pyStrip winVer = "" then "unknown" else pyStrip winVer))
      else if osRel ≠ "" then
        let p := parse_os_release osRel
        if pyTruthy p.1 then p else (none, none)
      else (none, none)

end Dashboard

namespace Dashboard

/-! ## Theorems about the command catalog -/

/-- Combined catalog check for one family and mode: `resolve` succeeds,
the command contains the family's native package-manager invocation,
and in repo-only mode it contains the family's config-preserving flag
whenever the package manager has one. -/
def catalogCheck (d : String) (b : Bool) : Bool :=
  match get_update_command d b with
  | .ok (cmd, _) =>
      strContains cmd (nativePackageManager d) &&
      (!b || (configPreservingFlag d).all (fun f => strContains cmd f))
  | .error _ => false

/-- C4: for all five Linux families and both `repoOnly` values, the
catalog resolves to a command containing the family's native
package-manager invocation, and every repo-only variant of a family
whose package manager has a config-preserving flag (apt-get's
`--force-confold`; dnf/yum's `--setopt=tsflags=noscripts`, the flag the
catalog documents as "preserving config files"; pacman has none)
contains that flag. -/
theorem catalog_resolves_native_pm_with_config_flag :
    ∀ d ∈ linuxFamilies, ∀ b : Bool, catalogCheck d b = true := by
  decide

/-- Witness for C4 at family `ubuntu`, repo-only mode. -/
theorem catalog_resolves_native_pm_with_config_flag_witness :
    "ubuntu" ∈ linuxFamilies ∧ catalogCheck "ubuntu" true = true :=
  ⟨by decide, catalog_resolves_native_pm_with_config_flag "ubuntu" (by decide) true⟩

/-- C5: the desktop (windows) family's repo-only command references the
platform update mechanism (`Get-WindowsUpdate` via PowerShell) and not
the supplementary package manager (`winget`); the full variant
references both. -/
theorem windows_repo_only_excludes_winget :
    ((get_update_command "windows" true).toOption.map
        (fun p => (strContains p.1 "Get-WindowsUpdate", strContains p.1 "winget"))
      = some (true, false)) ∧
    ((get_update_command "windows" false).toOption.map
        (fun p => (strContains p.1 "Get-WindowsUpdate", strContains p.1 "winget"))
      = some (true, true)) := by
  decide

/-- C6: every family outside the closed supported set is rejected by
`resolve` with an `Unsupported distribution` error (a raised
`ValueError`, not a command), for either mode. -/
theorem unsupported_family_is_rejected (d : String)
    (hd : d ∉ SUPPORTED_DISTRIBUTIONS) (b : Bool) :
    get_update_command d b = .error ("Unsupported distribution: " ++ d) := by
  simp only [SUPPORTED_DISTRIBUTIONS, List.mem_cons, List.not_mem_nil, or_false,
    not_or] at hd
  obtain ⟨h1, h2, h3, h4, h5, h6⟩ := hd
  simp [get_update_command, h1, h2, h3, h4, h5, h6]

/-- Witness for C6 at the spec's example family `unknown_family`. -/
theorem unsupported_family_is_rejected_witness :
    "unknown_family" ∉ SUPPORTED_DISTRIBUTIONS ∧
    get_update_command "unknown_family" false =
      .error ("Unsupported distribution: " ++ "unknown_family") :=
  ⟨by decide, unsupported_family_is_rejected "unknown_family" (by decide) false⟩

end Dashboard

namespace Dashboard

/-! ## Theorems about submission and the format worker -/

/-- Environment in which every spawned process exits 0 silently. -/
def envExitZero : ExecEnv := fun _ => SpawnResult.completed 0 ""

/-- Environment in which every spawned process exits 137 silently. -/
def envExit137 : ExecEnv := fun _ => SpawnResult.completed 137 ""

/-- C1 counterexample: submitting a short SMART run for the valid
device `sda` executes the `smartctl` command synchronously inside the
submitting call and returns `None` to the caller, not the new
Operation id — even though the RUNNING/0 row is created. -/
theorem start_smart_blocks_and_returns_no_id :
    (start_smart envExitZero emptyStore "sda" "short").ret = none ∧
    (start_smart envExitZero emptyStore "sda" "short").syncCmds
      = [["smartctl", "-t", "short", "/dev/sda"]] ∧
    (start_smart envExitZero emptyStore "sda" "short").store.ops
      = [{ id := 1, device := "sda", action := "SMART_SHORT",
           status := OpStatus.RUNNING, progress := 0 }] := by
  refine ⟨rfl, rfl, rfl⟩

/-- `run` accepts any argv whose executable is `smartctl`. -/
theorem run_validation_smartctl (args : List String) :
    run_validation ("smartctl" :: args) = none := rfl

/-- C1 amended: a format submission creates exactly one Operation row
(status RUNNING, progress 0), runs no command synchronously, defers all
work to a spawned worker, and returns the new id; a SMART submission
with a valid device and mode first runs `smartctl` synchronously in the
calling thread, then creates its one RUNNING/0 row, and returns no id. -/
theorem submission_creates_one_running_row (st : Store) (env : ExecEnv)
    (device fs mode : String)
    (hdev : sanitize_device_name device = .ok device)
    (hmode : mode = "short" ∨ mode = "long") :
    ((start_format st device fs).ret = some st.nextId ∧
     (start_format st device fs).store.ops
       = st.ops ++ [{ id := st.nextId, device := device, action := "FORMAT_" ++ fs,
                      status := OpStatus.RUNNING, progress := 0 }] ∧
     (start_format st device fs).syncCmds = [] ∧
     (start_format st device fs).spawnedWorkers = [(device, fs, st.nextId)] ∧
     (start_format st device fs).exn = none) ∧
    ((start_smart env st device mode).ret = none ∧
     (start_smart env st device mode).syncCmds
       = [["smartctl", "-t", mode, "/dev/" ++ device]] ∧
     (start_smart env st device mode).store.ops
       = st.ops ++ [{ id := st.nextId, device := device,
                      action := "SMART_" ++ strUpper mode,
                      status := OpStatus.RUNNING, progress := 0 }] ∧
     (start_smart env st device mode).exn = none) := by
  have hnotboth : ¬(mode ≠ "short" ∧ mode ≠ "long") := by
    rcases hmode with h | h <;> simp [h]
  constructor
  · exact ⟨rfl, rfl, rfl, rfl, rfl⟩
  · have hrun : ∃ out, run env ["smartctl", "-t", mode, "/dev/" ++ device] = .ok out := by
      unfold run
      rw [run_validation_smartctl]
      cases env ["smartctl", "-t", mode, "/dev/" ++ device] with
      | completed ec out => exact ⟨out, rfl⟩
      | raised m => exact ⟨m, rfl⟩
    obtain ⟨out, hout⟩ := hrun
    simp [start_smart, hdev, hnotboth, hout, log_op]

/-- Witness for C1's amended theorem at device `sda`, mode `short`. -/
theorem submission_creates_one_running_row_witness :
    sanitize_device_name "sda" = .ok "sda" ∧
    ("short" = "short" ∨ "short" = "long") ∧
    (start_format emptyStore "sda" "ext4").ret = some 1 ∧
    (start_smart envExitZero emptyStore "sda" "short").ret = none := by
  have h := submission_creates_one_running_row emptyStore envExitZero "sda" "ext4"
    "short" rfl (Or.inl rfl)
  exact ⟨rfl, Or.inl rfl, h.1.1, h.2.1⟩

end Dashboard

namespace Dashboard

/-- C2: evaluation of the format worker at the failing input: device
`sdb`, filesystem `ext4`, in an environment where every spawned process
exits 0.  The Operation is finalized `FAIL, 0`, not `OK, 100`: `run`'s
executable allow-list `^[a-zA-Z0-9_-]+$` rejects `mkfs.ext4` (the dot),
so the `ValueError` aborts the worker after `wipefs`; and the final
conjunct shows exit codes are irrelevant — exit status 137 produces the
identical store (no exit code is recorded anywhere; the `operations`
schema has no column for one). -/
theorem format_worker_fails_even_on_exit_zero :
    (format_worker envExitZero (start_format emptyStore "sdb" "ext4").store
        "sdb" "ext4" 1).1.ops
      = [{ id := 1, device := "sdb", action := "FORMAT_ext4",
           status := OpStatus.FAIL, progress := 0 }] ∧
    (format_worker envExitZero (start_format emptyStore "sdb" "ext4").store
        "sdb" "ext4" 1).2
      = [["wipefs", "-a", "/dev/sdb"], ["mkfs.ext4", "-F", "/dev/sdb"]] ∧
    run_validation ["mkfs.ext4", "-F", "/dev/sdb"]
      = some "Invalid command executable: mkfs.ext4" ∧
    (format_worker envExit137 (start_format emptyStore "sdb" "ext4").store
        "sdb" "ext4" 1).1
      = (format_worker envExitZero (start_format emptyStore "sdb" "ext4").store
        "sdb" "ext4" 1).1 := by
  refine ⟨rfl, rfl, rfl, rfl⟩

/-- Boundary of the allow-list, matching Python `$` semantics: a name
with one trailing newline is accepted (`re.match` lets `$` match before
it), while a lone newline, an interior newline, and the empty string
are rejected. -/
theorem sanitize_device_name_newline_boundary :
    sanitize_device_name "sda\n" = .ok "sda\n" ∧
    sanitize_device_name "\n" = .error ("Invalid device name: " ++ "\n") ∧
    sanitize_device_name "sd\na" = .error ("Invalid device name: " ++ "sd\na") ∧
    sanitize_device_name "" = .error "Invalid device name" := by
  refine ⟨rfl, rfl, rfl, rfl⟩

/-- C3 counterexample: submitting a format for the invalid device name
`../etc` (it fails the allow-list) is not rejected before row creation:
`start_format` logs the Operation row first and returns its id. -/
theorem start_format_creates_row_for_invalid_name :
    sanitize_device_name "../etc" = .error ("Invalid device name: " ++ "../etc") ∧
    (start_format emptyStore "../etc" "ext4").store.ops
      = [{ id := 1, device := "../etc", action := "FORMAT_ext4",
           status := OpStatus.RUNNING, progress := 0 }] ∧
    (start_format emptyStore "../etc" "ext4").ret = some 1 := by
  refine ⟨rfl, rfl, rfl⟩

/-- C3 amended: an allow-list-failing device name never reaches command
execution, but the two submission paths reject it differently: a SMART
submission raises before any Operation row is created and before any
command runs; a format submission creates one Operation row and spawns
a worker, and that worker hands no command to the execution facility
(no process is spawned for the name) and finalizes the row as FAIL, 0. -/
theorem invalid_device_never_reaches_command (st : Store) (device e : String)
    (hbad : sanitize_device_name device = .error e) (env : ExecEnv)
    (mode fs : String) (op_id : Nat) :
    (start_smart env st device mode).store = st ∧
    (start_smart env st device mode).syncCmds = [] ∧
    (start_smart env st device mode).exn = some e ∧
    (start_smart env st device mode).ret = none ∧
    (start_format st device fs).store.ops.length = st.ops.length + 1 ∧
    (format_worker env st device fs op_id).2 = [] ∧
    (format_worker env st device fs op_id).1
      = update_op st op_id (some OpStatus.FAIL) (some 0) := by
  refine ⟨?_, ?_, ?_, ?_, ?_, ?_, ?_⟩
  · simp [start_smart, hbad]
  · simp [start_smart, hbad]
  · simp [start_smart, hbad]
  · simp [start_smart, hbad]
  · simp [start_format, log_op]
  · simp [format_worker, hbad]
  · simp [format_worker, hbad]

/-- Witness for C3's amended theorem at the spec's example `../etc`. -/
theorem invalid_device_never_reaches_command_witness :
    sanitize_device_name "../etc" = .error ("Invalid device name: " ++ "../etc") ∧
    (start_smart envExitZero emptyStore "../etc" "short").syncCmds = [] ∧
    (format_worker envExitZero emptyStore "../etc" "ext4" 1).2 = [] := by
  have h := invalid_device_never_reaches_command emptyStore "../etc"
    ("Invalid device name: " ++ "../etc") rfl envExitZero "short" "ext4" 1
  exact ⟨rfl, h.2.1, h.2.2.2.2.2.1⟩

end Dashboard

namespace Dashboard

/-- C7: OS detection never raises past its boundary — both detectors
are total functions — and every failure resolves to the
detection-failed value `(None, None)` (the spec's `(unknown, unknown)`)
rather than an exception: locally a missing release file, a permission
error, any other read error, or content with no usable `ID=` entry;
remotely any transport failure during probing, and any completed probe
that neither identifies Windows nor yields usable release content. -/
theorem detection_failure_never_raises :
    (∀ env : LocalEnv, env.platform ≠ "windows" →
       (env.osRelease = FileRead.missing ∨
        env.osRelease = FileRead.permissionDenied ∨
        (∃ m, env.osRelease = FileRead.ioError m) ∨
        (∃ c, env.osRelease = FileRead.ok c ∧
              pyTruthy (parse_os_release c).1 = false)) →
       detect_os_local env = (none, none)) ∧
    (∀ (lenv : LocalEnv) (m : String),
       detect_os_remote false lenv (RemoteProbe.transportFail m) = (none, none)) ∧
    (∀ (lenv : LocalEnv) (w v rel : String),
       strLower (pyStrip w) ≠ "windows" →
       pyTruthy (parse_os_release rel).1 = false →
       detect_os_remote false lenv (RemoteProbe.session w v rel) = (none, none)) := by
  refine ⟨?_, ?_, ?_⟩
  · rintro ⟨pl, rel, osr⟩ hp hfail
    simp only [detect_os_local, if_neg hp]
    rcases hfail with h | h | ⟨m, h⟩ | ⟨c, h, hparse⟩ <;> subst h
    · rfl
    · rfl
    · rfl
    · simp [hparse]
  · intro lenv m
    rfl
  · intro lenv w v rel hw hparse
    simp only [detect_os_remote, if_neg (Bool.false_ne_true), Bool.false_eq_true,
      if_false]
    rw [if_neg hw]
    by_cases hrel : rel = ""
    · simp [hrel]
    · rw [if_pos hrel]
      simp [hparse]

/-- Witness for C7 at concrete failing inputs: a Linux platform with a
missing release file; a remote connect timeout; a remote session whose
probes return garbage. -/
theorem detection_failure_never_raises_witness :
    (("linux" : String) ≠ "windows" ∧
     detect_os_local ⟨"linux", "", FileRead.missing⟩ = (none, none)) ∧
    detect_os_remote false ⟨"linux", "", FileRead.missing⟩
      (RemoteProbe.transportFail "connect timeout") = (none, none) ∧
    (strLower (pyStrip "bash: powershell.exe: command not found") ≠ "windows" ∧
     pyTruthy (parse_os_release "garbage content").1 = false ∧
     detect_os_remote false ⟨"linux", "", FileRead.missing⟩
       (RemoteProbe.session "bash: powershell.exe: command not found" ""
         "garbage content") = (none, none)) := by
  refine ⟨⟨by decide, ?_⟩, ?_, by decide, by decide, ?_⟩
  · exact detection_failure_never_raises.1 ⟨"linux", "", FileRead.missing⟩
      (by decide) (Or.inl rfl)
  · exact detection_failure_never_raises.2.1 ⟨"linux", "", FileRead.missing⟩
      "connect timeout"
  · exact detection_failure_never_raises.2.2 ⟨"linux", "", FileRead.missing⟩
      "bash: powershell.exe: command not found" "" "garbage content"
      (by decide) (by decide)

/-- C8: a stop request rewrites only the status field of the rows with
the given Operation id to `STOPPED`: every row keeps its id, subject,
action and progress; every row with a different id keeps its status;
the live processes/sessions and the id counter are untouched. -/
theorem stop_task_is_soft_and_framed (s : SysState) (op_id : Nat) :
    (stop_task s op_id).procs = s.procs ∧
    (stop_task s op_id).store.nextId = s.store.nextId ∧
    (stop_task s op_id).store.ops.map OpRow.id = s.store.ops.map OpRow.id ∧
    (stop_task s op_id).store.ops.map OpRow.device = s.store.ops.map OpRow.device ∧
    (stop_task s op_id).store.ops.map OpRow.action = s.store.ops.map OpRow.action ∧
    (stop_task s op_id).store.ops.map OpRow.progress
      = s.store.ops.map OpRow.progress ∧
    (stop_task s op_id).store.ops.map OpRow.status
      = s.store.ops.map (fun r =>
          if r.id = op_id then OpStatus.STOPPED else r.status) := by
  refine ⟨rfl, rfl, ?_, ?_, ?_, ?_, ?_⟩ <;>
  · simp only [stop_task, List.map_map]
    apply List.map_congr_left
    intro r _
    by_cases h : r.id = op_id <;> simp [h]

/-- C10: reading the status of an Operation id with no row in the store
returns `(None, None)` instead of raising. -/
theorem missing_operation_status_is_none (st : Store) (op_id : Nat)
    (h : ∀ r ∈ st.ops, r.id ≠ op_id) :
    get_task_status st op_id = (none, none) := by
  unfold get_task_status
  have hf : st.ops.find? (fun r => r.id = op_id) = none := by
    rw [List.find?_eq_none]
    intro r hr
    simpa using h r hr
  rw [hf]

/-- Witness for C10: a store holding only Operation 1, queried for the
absent id 2. -/
theorem missing_operation_status_is_none_witness :
    (∀ r ∈ ({ ops := [{ id := 1, device := "sda", action := "FORMAT_ext4",
                        status := OpStatus.RUNNING, progress := 0 }],
              nextId := 2 } : Store).ops, r.id ≠ 2) ∧
    get_task_status { ops := [{ id := 1, device := "sda", action := "FORMAT_ext4",
                                status := OpStatus.RUNNING, progress := 0 }],
                      nextId := 2 } 2 = (none, none) := by
  refine ⟨by decide, ?_⟩
  exact missing_operation_status_is_none _ 2 (by decide)

end Dashboard

namespace Dashboard

/-- `upsert_disk` never loses a device already present in the table. -/
theorem upsert_disk_covers (acc : List DiskRow) (d : BlockDev)
    (srl : Option String) (nowT : Nat) (dev : String)
    (h : ∃ r ∈ acc, r.device = dev) :
    ∃ r ∈ upsert_disk acc d srl nowT, r.device = dev := by
  obtain ⟨r, hr, hdev⟩ := h
  unfold upsert_disk
  by_cases hex : acc.any (fun r => r.device = d.name)
  · rw [if_pos hex]
    refine ⟨_, List.mem_map_of_mem _ hr, ?_⟩
    by_cases hd : r.device = d.name
    · rw [if_pos hd]
      show d.name = dev
      rw [← hd, hdev]
    · rw [if_neg hd]
      exact hdev
  · rw [if_neg hex]
    exact ⟨r, List.mem_append.mpr (Or.inl hr), hdev⟩

/-- Every row of an `upsert_disk` result is either the freshly inserted
row of a device absent from the table, or shares its device and
`first_seen` with a pre-existing row. -/
theorem upsert_disk_mem_cases (acc : List DiskRow) (d : BlockDev)
    (srl : Option String) (nowT : Nat) (r : DiskRow)
    (hr : r ∈ upsert_disk acc d srl nowT) :
    (r.device = d.name ∧ ∀ r0 ∈ acc, r0.device ≠ d.name) ∨
    (∃ r0 ∈ acc, r0.device = r.device ∧ r0.first_seen = r.first_seen) := by
  unfold upsert_disk at hr
  by_cases hex : acc.any (fun r => r.device = d.name)
  · rw [if_pos hex] at hr
    obtain ⟨r0, hr0, hmap⟩ := List.mem_map.mp hr
    right
    refine ⟨r0, hr0, ?_⟩
    by_cases hd : r0.device = d.name
    · rw [if_pos hd] at hmap
      rw [← hmap]
      exact ⟨hd, rfl⟩
    · rw [if_neg hd] at hmap
      rw [hmap]
      exact ⟨rfl, rfl⟩
  · rw [if_neg hex] at hr
    rcases List.mem_append.mp hr with h | h
    · right
      exact ⟨r, h, rfl, rfl⟩
    · left
      simp only [List.mem_singleton] at h
      subst h
      refine ⟨rfl, fun r0 hr0 hne => ?_⟩
      exact hex (List.any_eq_true.mpr ⟨r0, hr0, by simpa using hne⟩)

/-- Invariant of `sync_disks`' upsert fold: any row stamped at or after
`nowT` belongs to a device of the enumerated set (`names`) that had no
row in the original table `db0`. -/
theorem fold_upsert_fresh (serialOf : String → Option String) (nowT : Nat)
    (db0 : List DiskRow) (names : List String) :
    ∀ (ds : List BlockDev) (acc : List DiskRow),
      (∀ d ∈ ds, d.name ∈ names) →
      (∀ x ∈ db0, ∃ r ∈ acc, r.device = x.device) →
      (∀ r ∈ acc, nowT ≤ r.first_seen →
        r.device ∈ names ∧ ∀ x ∈ db0, x.device ≠ r.device) →
      ∀ r ∈ ds.foldl (fun a d => upsert_disk a d (serialOf d.name) nowT) acc,
        nowT ≤ r.first_seen →
          r.device ∈ names ∧ ∀ x ∈ db0, x.device ≠ r.device := by
  intro ds
  induction ds with
  | nil =>
    intro acc _ _ hI r hr hfr
    exact hI r hr hfr
  | cons d ds ih =>
    intro acc hds hcov hI
    simp only [List.foldl_cons]
    apply ih
    · intro d' hd'
      exact hds d' (List.mem_cons_of_mem _ hd')
    · intro x hx
      exact upsert_disk_covers _ _ _ _ _ (hcov x hx)
    · intro r hr hfr
      rcases upsert_disk_mem_cases _ _ _ _ r hr with ⟨hdev, hnone⟩ | ⟨r0, hr0, hdev, hfs⟩
      · constructor
        · rw [hdev]
          exact hds d (List.mem_cons_self _ _)
        · intro x hx heq
          obtain ⟨r2, hr2, hdev2⟩ := hcov x hx
          exact hnone r2 hr2 (by rw [hdev2, heq, hdev])
      · have h0 := hI r0 hr0 (by rw [hfs]; exact hfr)
        exact ⟨hdev ▸ h0.1, fun x hx => hdev ▸ h0.2 x hx⟩

/-- Submissions of one `sync_disks` run happen only with the enable
flag set, are format-ext4 or short-SMART tasks, and target only newly
observed, non-excluded devices. -/
theorem sync_disks_submissions (serialOf : String → Option String)
    (db : List DiskRow) (nowT : Nat) (lsblkOut : Option (List BlockDev))
    (auto_enabled : Bool)
    (hfresh : ∀ r ∈ db, r.first_seen < nowT) :
    ∀ sub ∈ (sync_disks serialOf db nowT lsblkOut auto_enabled).2,
      auto_enabled = true ∧
      (sub = Submission.format sub.device "ext4" ∨
       sub = Submission.smart sub.device "short") ∧
      sub.device ∈ (ls_disks lsblkOut).map BlockDev.name ∧
      (∀ x ∈ db, x.device ≠ sub.device) ∧
      sub.device ≠ AUTO_SKIP_DEVICE ∧
      strStarts sub.device "nvme" = false := by
  intro sub hsub
  by_cases hen : auto_enabled = true
  case neg =>
    exfalso
    simp only [sync_disks, Bool.not_eq_true] at hsub
    rw [Bool.not_eq_true] at hen
    simp [hen] at hsub
  case pos =>
    subst hen
    simp only [sync_disks, if_true] at hsub
    obtain ⟨dev, hdev, hpair⟩ := List.mem_flatMap.mp hsub
    obtain ⟨hdev_mem, hdev_cond⟩ := List.mem_filter.mp hdev
    obtain ⟨r, hr, hrdev⟩ := List.mem_map.mp hdev_mem
    obtain ⟨hr2, hrfresh⟩ := List.mem_filter.mp hr
    simp only [List.mem_cons, List.not_mem_nil, or_false] at hpair
    have hsubdev : sub.device = dev := by
      rcases hpair with h | h
      · rw [h]; rfl
      · rw [h]; rfl
    have hkind : sub = Submission.format sub.device "ext4" ∨
        sub = Submission.smart sub.device "short" := by
      rcases hpair with h | h
      · left; rw [h]; rfl
      · right; rw [h]; rfl
    have hcond := hdev_cond
    rw [Bool.and_eq_true] at hcond
    obtain ⟨hskip, hnvme⟩ := hcond
    have hfr : nowT ≤ r.first_seen := by simpa using hrfresh
    have hmain := fold_upsert_fresh serialOf nowT db
        ((ls_disks lsblkOut).map BlockDev.name) (ls_disks lsblkOut)
        (db.map (fun r => { r with present := false }))
        (fun d hd => List.mem_map_of_mem _ hd)
        (fun x hx => ⟨{ x with present := false }, List.mem_map_of_mem _ hx, rfl⟩)
        (fun r' hr' hfr' => by
          obtain ⟨x, hx, hmapx⟩ := List.mem_map.mp hr'
          exfalso
          have := hfresh x hx
          rw [← hmapx] at hfr'
          exact Nat.not_le.mpr this hfr')
        r hr2 hfr
    refine ⟨rfl, hkind, ?_, ?_, ?_, ?_⟩
    · rw [hsubdev, ← hrdev]
      exact hmain.1
    · intro x hx
      rw [hsubdev, ← hrdev]
      exact hmain.2 x hx
    · rw [hsubdev]
      simpa using hskip
    · rw [hsubdev]
      simpa using hnvme

end Dashboard

namespace Dashboard

/-- When disk enumeration fails (unparseable `lsblk` output),
`sync_disks` submits nothing — there are no fresh rows to act on. -/
theorem sync_disks_enum_failure_no_subs (serialOf : String → Option String)
    (db : List DiskRow) (nowT : Nat) (auto_enabled : Bool)
    (hfresh : ∀ r ∈ db, r.first_seen < nowT) :
    (sync_disks serialOf db nowT none auto_enabled).2 = [] := by
  simp only [sync_disks, ls_disks, List.foldl_nil]
  have hfil : (db.map (fun r => { r with present := false })).filter
      (fun r => decide (nowT ≤ r.first_seen)) = [] := by
    rw [List.filter_eq_nil_iff]
    intro r hr
    obtain ⟨x, hx, hmapx⟩ := List.mem_map.mp hr
    simp only [decide_eq_true_eq]
    rw [← hmapx]
    exact Nat.not_le.mpr (hfresh x hx)
  rw [hfil]
  simp

/-- `auto_mode_worker` processes every tick of any finite trace: the
per-tick submission log has one entry per tick, whatever failures the
trace contains. -/
theorem auto_mode_run_length (serialOf : String → Option String) :
    ∀ (ts : List TickInput) (db : List DiskRow),
      (auto_mode_run serialOf db ts).2.length = ts.length := by
  intro ts
  induction ts with
  | nil => intro db; rfl
  | cons t ts ih =>
    intro db
    simp only [auto_mode_run, List.length_cons, ih]

/-- C9: the poller loop runs every tick of any trace (an enumeration
failure does not end it and submits nothing that tick), submits nothing
while the enable flag is clear, and otherwise submits only default
tasks (format ext4 or short SMART) for newly observed devices that are
neither the excluded boot device nor NVMe devices. -/
theorem auto_trigger_poller_safe (serialOf : String → Option String)
    (db : List DiskRow) (t : TickInput)
    (hfresh : ∀ r ∈ db, r.first_seen < t.nowT) :
    (∀ ts : List TickInput,
       (auto_mode_run serialOf db (t :: ts)).2.length = ts.length + 1) ∧
    (t.lsblkOut = none → (auto_mode_tick serialOf db t).2 = []) ∧
    (t.auto_enabled = false → (auto_mode_tick serialOf db t).2 = []) ∧
    (∀ sub ∈ (auto_mode_tick serialOf db t).2,
       t.auto_enabled = true ∧
       (sub = Submission.format sub.device "ext4" ∨
        sub = Submission.smart sub.device "short") ∧
       sub.device ∈ (ls_disks t.lsblkOut).map BlockDev.name ∧
       (∀ x ∈ db, x.device ≠ sub.device) ∧
       sub.device ≠ AUTO_SKIP_DEVICE ∧
       strStarts sub.device "nvme" = false) := by
  refine ⟨?_, ?_, ?_, ?_⟩
  · intro ts
    simp only [auto_mode_run, List.length_cons, auto_mode_run_length]
  · intro hnone
    unfold auto_mode_tick
    by_cases hen : t.auto_enabled
    · rw [if_pos hen, hnone]
      exact sync_disks_enum_failure_no_subs serialOf db t.nowT t.auto_enabled hfresh
    · rw [if_neg hen]
  · intro hen
    unfold auto_mode_tick
    simp [hen]
  · intro sub hsub
    unfold auto_mode_tick at hsub
    by_cases hen : t.auto_enabled
    · rw [if_pos hen] at hsub
      exact sync_disks_submissions serialOf db t.nowT t.lsblkOut t.auto_enabled
        hfresh sub hsub
    · rw [if_neg hen] at hsub
      simp at hsub

/-- Witness for C9: a table knowing `sda` (seen at time 5), one enabled
tick at time 10 enumerating a new disk `sdb`; the tick is processed. -/
theorem auto_trigger_poller_safe_witness :
    (∀ r ∈ [({ device := "sda", serial := none, model := none, size := none,
               present := true, first_seen := 5 } : DiskRow)],
       r.first_seen < (10 : Nat)) ∧
    (auto_mode_run (fun _ => none)
        [{ device := "sda", serial := none, model := none, size := none,
           present := true, first_seen := 5 }]
        [{ auto_enabled := true,
           lsblkOut := some [{ name := "sdb", size := some "10G", model := none,
                               type := "disk" }],
           nowT := 10 }]).2.length = 1 := by
  refine ⟨by decide, ?_⟩
  have h := auto_trigger_poller_safe (fun _ => none)
      [{ device := "sda", serial := none, model := none, size := none,
         present := true, first_seen := 5 }]
      { auto_enabled := true,
        lsblkOut := some [{ name := "sdb", size := some "10G", model := none,
                            type := "disk" }],
        nowT := 10 }
      (by decide)
  exact h.1 []

end Dashboard
